import Mathlib

/-
Verification of the bootloader core in src/test.c (the advanced revision,
`bootloader.c` section) against its natural-language specification.

The embedding is a shallow translation of the C source:
  * the process-wide `bootloader` struct (plus the platform collaborators'
    observable state: the monotonic tick counter of `get_system_tick`, the
    flash driver's busy flag, and the log of ACK/NACK frames handed to
    `send_ack_packet` / `send_nack_packet`) becomes the record `Core`;
  * every C function becomes a Lean function over `Core`;
  * `uint32_t` arithmetic is `Nat` arithmetic reduced `% U32` at each write,
    `size_t` arithmetic is reduced `% U64`;
  * `enter_state` recurses when a transition is rejected
    (`enter_state(STATE_ERROR)` from the fallback branch); that recursion is
    unbounded in C when the current state is already STATE_ERROR, so the
    embedding gives `enter_state` explicit fuel and returns `none` exactly
    when the C function would never return.  Fuel 2 is exact: one fallback
    step is the most a returning execution of the C function ever takes
    (proved in `enter_stateF_fuel_ge_two` below).
-/

namespace Boot

def U32 : Nat := 4294967296

def U64 : Nat := 18446744073709551616

def MAX_PACKET_SIZE : Nat := 256

def BUFFER_SIZE : Nat := 16

def APPLICATION_START : Nat := 0x08008000

/-- The six supervisor states of `bootloader_state_t`. -/
inductive BState where
  | idle
  | dfuActive
  | dfuVerify
  | runningApp
  | emergencyRecovery
  | error
deriving DecidableEq

/-- A response frame emitted through the wire collaborator:
`send_ack_packet` or `send_nack_packet(code)`. -/
inductive Resp where
  | ack
  | nack (code : Nat)
deriving DecidableEq

/-- One slot of the receive ring (`packet_t`).  `data` holds the bytes the
producer copied in; the C slot is a fixed `uint8_t[256]` array, so a stored
`length` above 256 models an out-of-bounds `memcpy`. -/
structure Packet where
  data : List Nat
  length : Nat
  valid : Bool
deriving DecidableEq

def emptyPacket : Packet := { data := [], length := 0, valid := false }

/-- `app_validation_t`. -/
structure AppValidation where
  valid : Bool
  calculated_crc : Nat
  expected_crc : Nat
  size : Nat
deriving DecidableEq

/-- The process-wide state: the `bootloader` struct of the source together
with the observable state of the platform collaborators (`tick` is the
static counter inside `get_system_tick`, `flash_busy` the mock flash
driver's busy flag, `out` the stream of emitted ACK/NACK frames). -/
structure Core where
  state : BState
  previous_state : BState
  buffer : List Packet
  head : Nat
  tail : Nat
  count : Nat
  expected_seq : Nat
  bytes_received : Nat
  total_size : Nat
  expected_crc : Nat
  session_active : Bool
  packets_processed : Nat
  packets_dropped : Nat
  error_count : Nat
  recovery_attempts : Nat
  app_launch_attempts : Nat
  state_entry_time : Nat
  last_activity_time : Nat
  session_timeout_ms : Nat
  app_validation_timeout_ms : Nat
  app_validation : AppValidation
  force_bootloader_mode : Bool
  tick : Nat
  flash_busy : Bool
  out : List Resp
deriving DecidableEq

/-- `get_system_tick`: the static counter is bumped by 1000 (µs) on every
call and returned; it is a `uint32_t`, hence the wrap. -/
def getTick (s : Core) : Nat × Core :=
  let t := (s.tick + 1000) % U32
  (t, { s with tick := t })

/-- `uint32_t` subtraction `a - b` as the C code computes it for the
timeout comparisons (both operands already reduced mod 2^32). -/
def elapsed (a b : Nat) : Nat := (a % U32 + U32 - b % U32) % U32

def sendAck (s : Core) : Core := { s with out := s.out ++ [Resp.ack] }

def sendNack (code : Nat) (s : Core) : Core :=
  { s with out := s.out ++ [Resp.nack code] }

/-- Byte `i` of a packet as the C code reads it (`uint8_t` access). -/
def pByte (p : Packet) (i : Nat) : Nat := p.data.getD i 0 % 256

/-- `validate_state_transition`, transcribing the admissibility switch. -/
def validate_state_transition (src dst : BState) : Bool :=
  match src, dst with
  | .idle, .dfuActive => true
  | .idle, .runningApp => true
  | .idle, .emergencyRecovery => true
  | .idle, .error => true
  | .dfuActive, .dfuVerify => true
  | .dfuActive, .idle => true
  | .dfuActive, .emergencyRecovery => true
  | .dfuActive, .error => true
  | .dfuVerify, .runningApp => true
  | .dfuVerify, .idle => true
  | .dfuVerify, .emergencyRecovery => true
  | .dfuVerify, .error => true
  | .runningApp, .idle => true
  | .runningApp, .emergencyRecovery => true
  | .runningApp, .error => true
  | .emergencyRecovery, .idle => true
  | .emergencyRecovery, .error => true
  | .error, .idle => true
  | .error, .emergencyRecovery => true
  | _, _ => false

/-- The state-entry actions of `enter_state` (the switch body), run after
the state fields and the entry timestamp have been written. -/
def entryActions (s : Core) : Core :=
  match s.state with
  | .idle =>
      { s with session_active := false, expected_seq := 0, bytes_received := 0 }
  | .dfuActive => s
  | .dfuVerify => s
  | .runningApp =>
      { s with app_launch_attempts := (s.app_launch_attempts + 1) % U32 }
  | .emergencyRecovery =>
      { s with recovery_attempts := (s.recovery_attempts + 1) % U32,
               force_bootloader_mode := true }
  | .error => { s with error_count := (s.error_count + 1) % U32 }

/-- `enter_state` with explicit fuel for its fallback recursion.  `none`
means the fuel ran out, which at fuel ≥ 2 happens exactly when the C
function recurses forever (invalid target while already in STATE_ERROR). -/
def enter_stateF : Nat → BState → Core → Option Core
  | 0, _, _ => none
  | fuel + 1, newState, s =>
    if validate_state_transition s.state newState then
      let s1 := { s with previous_state := s.state, state := newState }
      let (t, s2) := getTick s1
      some (entryActions { s2 with state_entry_time := t })
    else
      enter_stateF fuel BState.error s

def enter_state (newState : BState) (s : Core) : Option Core :=
  enter_stateF 2 newState s

/-- `handle_emergency_condition`. -/
def handle_emergency_condition (s : Core) : Option Core :=
  enter_state BState.emergencyRecovery s

/-- `bootloader_receive_packet`.  The returned `Bool` is the C return
value; the slot stores every byte the caller supplied because the C
`memcpy(pkt->data, data, length)` has no clamp. -/
def bootloader_receive_packet (bytes : List Nat) (s : Core) :
    Option (Bool × Core) :=
  if s.count ≥ BUFFER_SIZE then
    let s1 := { s with packets_dropped := (s.packets_dropped + 1) % U32 }
    if s1.packets_dropped > 10 ∧ s1.state ≠ BState.emergencyRecovery then
      (handle_emergency_condition s1).map (fun s2 => (false, s2))
    else
      some (false, s1)
  else
    let pkt : Packet := { data := bytes, length := bytes.length, valid := true }
    let s1 := { s with buffer := s.buffer.set s.head pkt,
                       head := (s.head + 1) % BUFFER_SIZE,
                       count := s.count + 1 }
    let (t, s2) := getTick s1
    some (true, { s2 with last_activity_time := t })

/-- `handle_idle_packet` (the `seq` argument is unused in the source). -/
def handle_idle_packet (pkt : Packet) (ptype : Nat) (s : Core) : Option Core :=
  if ptype = 1 then
    if s.force_bootloader_mode = false ∧ pkt.length ≥ 8 then
      let ts := pByte pkt 2 * 16777216 + pByte pkt 3 * 65536 +
                pByte pkt 4 * 256 + pByte pkt 5
      let crc := pByte pkt 6 * 256 + pByte pkt 7
      let s1 := { s with total_size := ts, expected_crc := crc }
      if 0 < s1.total_size ∧ s1.total_size ≤ 1048576 then
        (enter_state BState.dfuActive s1).map (fun s2 =>
          sendAck { s2 with session_active := true, expected_seq := 1,
                            bytes_received := 0 })
      else
        some (sendNack 5 s1)
    else if s.force_bootloader_mode then
      some (sendNack 18 s)
    else
      some (sendNack 1 s)
  else if ptype = 7 then
    if s.force_bootloader_mode = false then
      (enter_state BState.dfuVerify s).map sendAck
    else
      some (sendNack 18 s)
  else
    some (sendNack 1 s)

/-- `handle_dfu_packet`.  `start_flash_write` accepts iff the driver is
idle and then becomes busy; the flash contents themselves are not
modelled (the verify step never reads them, see
`calculated_image_crc`). -/
def handle_dfu_packet (pkt : Packet) (seq ptype : Nat) (s : Core) :
    Option Core :=
  if ptype = 2 then
    if seq = s.expected_seq then
      let payload_len := (pkt.length + U64 - 2) % U64
      if s.flash_busy = false then
        let s1 := { s with flash_busy := true }
        some (sendAck
          { s1 with bytes_received := (s1.bytes_received + payload_len) % U32,
                    expected_seq := (s1.expected_seq + 1) % U32 })
      else
        some (sendNack 3 s)
    else
      let s1 := { (sendNack 2 s) with
                  error_count := (s.error_count + 1) % U32 }
      if s1.error_count > 5 then handle_emergency_condition s1 else some s1
  else if ptype = 3 then
    if s.bytes_received = s.total_size then
      (enter_state BState.dfuVerify s).map sendAck
    else
      enter_state BState.error (sendNack 8 s)
  else
    some (sendNack 4 s)

/-- One iteration body of the packet-drain loop: the global type handlers
followed by the per-state routing (the inner switch of
`bootloader_process_cycle`). -/
def dispatchPacket (pkt : Packet) (s : Core) : Option Core :=
  let seq := pByte pkt 0
  let ptype := pByte pkt 1
  if ptype = 5 then some (sendAck s)
  else if ptype = 6 then some (sendAck s)
  else if ptype = 8 then handle_emergency_condition s
  else if ptype = 4 then
    if s.state = BState.dfuActive then
      (enter_state BState.idle s).map sendAck
    else
      some s
  else
    match s.state with
    | .idle => handle_idle_packet pkt ptype s
    | .dfuActive => handle_dfu_packet pkt seq ptype s
    | .emergencyRecovery =>
        if ptype ≠ 5 ∧ ptype ≠ 8 then some (sendNack 16 s) else some s
    | _ => some (sendNack 17 s)

/-- The `while (bootloader.count > 0)` drain loop.  Each iteration
dequeues exactly one slot, so fuel equal to `count` is exact; `none` at
fuel 0 flags a loop that would still be running. -/
def drainF : Nat → Core → Option Core
  | 0, s => if s.count = 0 then some s else none
  | fuel + 1, s =>
    if s.count = 0 then some s
    else
      let pkt := s.buffer.getD s.tail emptyPacket
      if pkt.valid = false then some s
      else
        let oldTail := s.tail
        let s1 := { s with tail := (s.tail + 1) % BUFFER_SIZE,
                           count := s.count - 1,
                           packets_processed := (s.packets_processed + 1) % U32 }
        ((dispatchPacket pkt s1).map (fun s2 =>
          { s2 with buffer := s2.buffer.set oldTail { pkt with valid := false } })).bind
          (drainF fuel)

/-- `handle_timeout_checks`: one tick sample, the session-inactivity
check, then the per-state switch (which observes any state change the
session check just made, but still compares against the old sample). -/
def handle_timeout_checks (s : Core) : Option Core :=
  let (t, s1) := getTick s
  let afterSession : Option Core :=
    if s1.session_active ∧
        elapsed t s1.last_activity_time > s1.session_timeout_ms * 1000 % U32 then
      enter_state BState.error s1
    else some s1
  afterSession.bind (fun s2 =>
    match s2.state with
    | .dfuVerify =>
        if elapsed t s2.state_entry_time >
            s2.app_validation_timeout_ms * 1000 % U32 then
          enter_state BState.error s2
        else some s2
    | .error =>
        if elapsed t s2.state_entry_time > 5000000 then
          enter_state BState.idle s2
        else some s2
    | _ => some s2)

/-- The source's stand-in for the CRC of the freshly written image: the
verify step never reads flash and uses the simulated constant `0x1234`
(src/test.c, `validate_application`). -/
def calculated_image_crc (_s : Core) : Nat := 0x1234

/-- `validate_application`: records the validation result and returns it. -/
def validate_application (s : Core) : Bool × Core :=
  let av : AppValidation :=
    { size := s.bytes_received
      calculated_crc := calculated_image_crc s
      expected_crc := s.expected_crc
      valid := decide (calculated_image_crc s = s.expected_crc) }
  (av.valid, { s with app_validation := av })

/-- The flash poll plus the state-specific background switch of
`bootloader_process_cycle`.  `flashDone` is the external fact the mock
driver checks (2 ms of wall time elapsed since the write began). -/
def backgroundWork (flashDone : Bool) (s : Core) : Option Core :=
  let s0 := if s.flash_busy ∧ flashDone = true then
              { s with flash_busy := false } else s
  match s0.state with
  | .dfuVerify =>
      let r := validate_application s0
      if r.1 then enter_state BState.runningApp r.2
      else enter_state BState.error r.2
  | .runningApp => enter_state BState.idle s0
  | .emergencyRecovery =>
      let (t, s1) := getTick s0
      if elapsed t s1.state_entry_time > 10000000 then
        enter_state BState.idle
          { s1 with packets_dropped := 0, error_count := 0 }
      else some s1
  | _ => some s0

/-- `bootloader_process_cycle`. -/
def bootloader_process_cycle (flashDone : Bool) (s : Core) : Option Core :=
  (handle_timeout_checks s).bind (fun s1 =>
    (backgroundWork flashDone s1).bind (fun s2 => drainF s2.count s2))

/-- A core whose `bootloader` struct is all zeroes, keeping the platform
collaborators' state (`memset(&bootloader, 0, sizeof(bootloader))` does
not touch the static tick counter, the flash driver, or the wire). -/
def mkCore (tick : Nat) (busy : Bool) (outs : List Resp) : Core :=
  { state := BState.idle, previous_state := BState.idle,
    buffer := List.replicate BUFFER_SIZE emptyPacket,
    head := 0, tail := 0, count := 0,
    expected_seq := 0, bytes_received := 0, total_size := 0, expected_crc := 0,
    session_active := false,
    packets_processed := 0, packets_dropped := 0, error_count := 0,
    recovery_attempts := 0, app_launch_attempts := 0,
    state_entry_time := 0, last_activity_time := 0,
    session_timeout_ms := 0, app_validation_timeout_ms := 0,
    app_validation := { valid := false, calculated_crc := 0,
                        expected_crc := 0, size := 0 },
    force_bootloader_mode := false,
    tick := tick, flash_busy := busy, out := outs }

/-- `bootloader_init`: zero the struct, set the default timeouts, clear
`force_bootloader_mode`, then `enter_state(STATE_IDLE)`. -/
def bootloader_init (s : Core) : Option Core :=
  enter_state BState.idle
    { mkCore s.tick s.flash_busy s.out with
      session_timeout_ms := 30000, app_validation_timeout_ms := 5000,
      force_bootloader_mode := false }



/-! ### Basic lemmas about `enter_state` and the dispatch helpers -/

/-- Non-recursive unfolding of `enter_state`: the fallback recursion of the
C function takes at most one step whenever it returns at all. -/
theorem enter_state_eq (dst : BState) (s : Core) :
    enter_state dst s =
      if validate_state_transition s.state dst then
        some (entryActions { s with previous_state := s.state, state := dst,
                                    tick := (s.tick + 1000) % U32,
                                    state_entry_time := (s.tick + 1000) % U32 })
      else if validate_state_transition s.state BState.error then
        some (entryActions { s with previous_state := s.state,
                                    state := BState.error,
                                    tick := (s.tick + 1000) % U32,
                                    state_entry_time := (s.tick + 1000) % U32 })
      else none := rfl

/-- `enter_state(STATE_ERROR)` invoked while the supervisor is already in
STATE_ERROR never returns: no amount of fuel produces a result. -/
theorem enter_stateF_error_loop (n : Nat) (s : Core)
    (h : s.state = BState.error) :
    enter_stateF n BState.error s = none := by
  induction n with
  | zero => rfl
  | succ m ih => simp [enter_stateF, h, validate_state_transition, ih]

theorem validate_to_error (b : BState) (h : b ≠ BState.error) :
    validate_state_transition b BState.error = true := by
  cases b <;> simp_all [validate_state_transition]

theorem validate_to_recovery (b : BState) (h : b ≠ BState.emergencyRecovery) :
    validate_state_transition b BState.emergencyRecovery = true := by
  cases b <;> simp_all [validate_state_transition]

/-- Fuel beyond 2 never changes the result of `enter_stateF`: the C
recursion either returns within one fallback step or never returns. -/
theorem enter_stateF_fuel_ge_two (n : Nat) (dst : BState) (s : Core) :
    enter_stateF (n + 2) dst s = enter_stateF 2 dst s := by
  simp only [enter_stateF]
  split
  · rfl
  · split
    · rfl
    · rename_i h1 h2
      have hs : s.state = BState.error := by
        by_contra hne
        rw [validate_to_error s.state hne] at h2
        exact h2 rfl
      exact enter_stateF_error_loop n s hs

theorem entryActions_count (s : Core) : (entryActions s).count = s.count := by
  cases hs : s.state <;> simp [entryActions, hs]

theorem entryActions_out (s : Core) : (entryActions s).out = s.out := by
  cases hs : s.state <;> simp [entryActions, hs]

theorem enter_state_count (dst : BState) (s t : Core)
    (h : enter_state dst s = some t) : t.count = s.count := by
  rw [enter_state_eq] at h
  split_ifs at h <;> simp only [Option.some.injEq] at h <;>
    rw [← h, entryActions_count]

theorem enter_state_out (dst : BState) (s t : Core)
    (h : enter_state dst s = some t) : t.out = s.out := by
  rw [enter_state_eq] at h
  split_ifs at h <;> simp only [Option.some.injEq] at h <;>
    rw [← h, entryActions_out]

/-- `handle_emergency_condition` always returns: the target is valid from
every state but EMERGENCY_RECOVERY, and from there the fallback to
STATE_ERROR is valid. -/
theorem emergency_some (s : Core) :
    ∃ t, handle_emergency_condition s = some t ∧ t.count = s.count ∧
      t.out = s.out := by
  unfold handle_emergency_condition
  by_cases h : s.state = BState.emergencyRecovery
  · rw [enter_state_eq, if_neg (by simp [h, validate_state_transition]),
      if_pos (validate_to_error _ (by simp [h]))]
    exact ⟨_, rfl, by rw [entryActions_count], by rw [entryActions_out]⟩
  · rw [enter_state_eq, if_pos (validate_to_recovery _ h)]
    exact ⟨_, rfl, by rw [entryActions_count], by rw [entryActions_out]⟩

/-- Every branch of `handle_idle_packet` returns and emits exactly one
response frame; the queue counter is untouched. -/
theorem handle_idle_total (pkt : Packet) (pt : Nat) (s : Core)
    (h : s.state = BState.idle) :
    ∃ t, handle_idle_packet pkt pt s = some t ∧ t.count = s.count ∧
      t.out.length = s.out.length + 1 := by
  simp only [handle_idle_packet]
  split_ifs with h1 h2 h3 hf h7 hf2 <;>
    simp [enter_state_eq, h, validate_state_transition, entryActions,
      sendAck, sendNack]

/-- Every branch of `handle_dfu_packet` returns with the queue counter
untouched and exactly one response frame emitted. -/
theorem handle_dfu_total (pkt : Packet) (sq pt : Nat) (s : Core)
    (h : s.state = BState.dfuActive) :
    ∃ t, handle_dfu_packet pkt sq pt s = some t ∧ t.count = s.count ∧
      t.out.length = s.out.length + 1 := by
  simp only [handle_dfu_packet]
  split_ifs with h2 hsq hfb h3 hdone <;>
    simp [enter_state_eq, handle_emergency_condition, h,
      validate_state_transition, entryActions, sendAck, sendNack]

/-- `dispatchPacket` always returns, and never touches the queue counter. -/
theorem dispatch_total (pkt : Packet) (s : Core) :
    ∃ t, dispatchPacket pkt s = some t ∧ t.count = s.count := by
  simp only [dispatchPacket]
  split_ifs with h5 h6 h8 h4 hst hrec
  · exact ⟨_, rfl, rfl⟩
  · exact ⟨_, rfl, rfl⟩
  · obtain ⟨t, ht, hc, _⟩ := emergency_some s
    exact ⟨t, ht, hc⟩
  · simp [enter_state_eq, hst, validate_state_transition, entryActions, sendAck]
  · exact ⟨s, rfl, rfl⟩
  · cases hs : s.state with
    | idle =>
      obtain ⟨t, ht, hc, _⟩ := handle_idle_total pkt (pByte pkt 1) s hs
      exact ⟨t, by simp [hs, ht], hc⟩
    | dfuActive =>
      obtain ⟨t, ht, hc, _⟩ := handle_dfu_total pkt (pByte pkt 0) (pByte pkt 1) s hs
      exact ⟨t, by simp [hs, ht], hc⟩
    | dfuVerify => exact ⟨sendNack 17 s, by simp [hs], rfl⟩
    | runningApp => exact ⟨sendNack 17 s, by simp [hs], rfl⟩
    | emergencyRecovery => exact ⟨sendNack 16 s, by simp [hs], rfl⟩
    | error => exact ⟨sendNack 17 s, by simp [hs], rfl⟩
  · exact absurd ⟨h5, h8⟩ hrec

theorem entryActions_state (s : Core) : (entryActions s).state = s.state := by
  cases hs : s.state <;> simp [entryActions, hs]

/-- A successful `enter_state` lands either in the requested state or, via
the invalid-transition fallback, in STATE_ERROR. -/
theorem enter_state_state (dst : BState) (s t : Core)
    (h : enter_state dst s = some t) :
    t.state = dst ∨ t.state = BState.error := by
  rw [enter_state_eq] at h
  split_ifs at h <;> simp only [Option.some.injEq] at h
  · exact Or.inl (by rw [← h, entryActions_state])
  · exact Or.inr (by rw [← h, entryActions_state])

/-- The drain loop returns whenever its fuel covers the queue count, which
`bootloader_process_cycle` guarantees by construction: each iteration
dequeues exactly one slot. -/
theorem drain_some (fuel : Nat) : ∀ s : Core, s.count ≤ fuel →
    ∃ t, drainF fuel s = some t := by
  induction fuel with
  | zero =>
    intro s h
    exact ⟨s, by simp [drainF, Nat.le_zero.mp h]⟩
  | succ n ih =>
    intro s h
    by_cases h0 : s.count = 0
    · exact ⟨s, by simp [drainF, h0]⟩
    · by_cases hv : (s.buffer.getD s.tail emptyPacket).valid = false
      · refine ⟨s, ?_⟩
        simp only [drainF]
        rw [if_neg h0, if_pos hv]
      · obtain ⟨t, ht, hc⟩ := dispatch_total (s.buffer.getD s.tail emptyPacket)
          { s with tail := (s.tail + 1) % BUFFER_SIZE, count := s.count - 1,
                   packets_processed := (s.packets_processed + 1) % U32 }
        obtain ⟨u, hu⟩ := ih
          { t with buffer := t.buffer.set s.tail { s.buffer.getD s.tail emptyPacket with valid := false } }
          (by simp only [hc]; omega)
        refine ⟨u, ?_⟩
        simp only [drainF]
        rw [if_neg h0, if_neg hv]
        simp only [ht, Option.map_some, Option.bind_some]
        exact hu

set_option maxRecDepth 8000 in
/-- `handle_timeout_checks` returns unless the supervisor sits in
STATE_ERROR with an active session whose inactivity timeout has expired
(the one input on which `enter_state` recurses forever). -/
theorem timeout_checks_some (s : Core)
    (h : ¬(s.state = BState.error ∧ s.session_active = true ∧
        elapsed ((s.tick + 1000) % U32) s.last_activity_time >
          s.session_timeout_ms * 1000 % U32)) :
    ∃ t, handle_timeout_checks s = some t := by
  simp only [handle_timeout_checks, getTick]
  split_ifs with hc
  · have hne : s.state ≠ BState.error := by
      intro he
      exact h ⟨he, by simpa using hc⟩
    rw [enter_state_eq]
    rw [if_pos (by simpa using validate_to_error s.state hne)]
    cases hs : s.state <;>
      simp [entryActions, enter_state_eq, validate_state_transition, hs] <;>
      split_ifs <;>
      simp [enter_state_eq, validate_state_transition, entryActions]
  · cases hs : s.state <;>
      simp [hs, enter_state_eq, validate_state_transition, entryActions] <;>
      split_ifs <;>
      simp [enter_state_eq, validate_state_transition, entryActions]

set_option maxRecDepth 8000 in
/-- The background switch of `bootloader_process_cycle` always returns:
all its transitions are admissible from the state that triggers them. -/
theorem background_some (f : Bool) (s : Core) :
    ∃ t, backgroundWork f s = some t := by
  simp only [backgroundWork, getTick]
  split_ifs with hp <;>
    cases hs : s.state <;>
      simp [hs, validate_application, enter_state_eq,
        validate_state_transition, entryActions, getTick]


/-! ### Concrete cores used by witnesses and counterexamples -/

/-- A freshly zeroed core with the default timeouts, in IDLE: the state the
spec expects `bootloader_init` to produce. -/
def idleCore : Core :=
  { mkCore 0 false [] with
    session_timeout_ms := 30000,
    app_validation_timeout_ms := 5000 }

/-- A core sitting in STATE_ERROR with an active session whose inactivity
timeout has long expired: the input on which `handle_timeout_checks` calls
`enter_state(STATE_ERROR)` from STATE_ERROR and never returns. -/
def stallCore : Core :=
  { mkCore 40000000 false [] with
    state := BState.error,
    session_active := true,
    state_entry_time := 39000000,
    session_timeout_ms := 30000,
    app_validation_timeout_ms := 5000 }

/-! ### C1 -/

/-- C1: the claim says `bootloader_init` leaves the supervisor in IDLE with
all counters zero.  The code instead ends in STATE_ERROR with
`error_count = 1`: the struct is zeroed, so the current state is already
IDLE, and `enter_state(STATE_IDLE)` is rejected by
`validate_state_transition` (IDLE→IDLE is inadmissible), falling back to
STATE_ERROR.  The timeouts, `force_bootloader_mode` and the remaining
counters are set as the claim says. -/
theorem C1_init_lands_in_error (s : Core) :
    ∃ t, bootloader_init s = some t ∧ t.state = BState.error ∧
      t.error_count = 1 ∧ t.session_timeout_ms = 30000 ∧
      t.app_validation_timeout_ms = 5000 ∧ t.force_bootloader_mode = false ∧
      t.session_active = false ∧ t.packets_processed = 0 ∧
      t.packets_dropped = 0 ∧ t.recovery_attempts = 0 ∧
      t.app_launch_attempts = 0 ∧ t.expected_seq = 0 ∧
      t.bytes_received = 0 ∧ t.count = 0 := by
  simp [bootloader_init, mkCore, enter_state_eq, validate_state_transition,
    entryActions, U32]

/-! ### C2 -/

/-- C2 counterexample: on `stallCore` the cycle never returns.  The session
check fires with the supervisor already in STATE_ERROR, so `enter_state`
recurses on its own invalid-transition fallback forever; in the fuel
embedding every fuel is exhausted (`enter_stateF_error_loop`), surfacing
as `none`. -/
theorem C2_counterexample :
    bootloader_process_cycle false stallCore = none := by decide

/-- C2 as amended: `bootloader_process_cycle` returns on every core state
and queue content except when the supervisor is in STATE_ERROR with an
active session whose inactivity timeout has expired. -/
theorem C2_cycle_returns (f : Bool) (s : Core)
    (h : ¬(s.state = BState.error ∧ s.session_active = true ∧
        elapsed ((s.tick + 1000) % U32) s.last_activity_time >
          s.session_timeout_ms * 1000 % U32)) :
    ∃ t, bootloader_process_cycle f s = some t := by
  obtain ⟨s1, h1⟩ := timeout_checks_some s h
  obtain ⟨s2, h2⟩ := background_some f s1
  obtain ⟨s3, h3⟩ := drain_some s2.count s2 le_rfl
  exact ⟨s3, by simp [bootloader_process_cycle, h1, h2, h3]⟩

theorem C2_witness : ∃ t, bootloader_process_cycle false idleCore = some t :=
  C2_cycle_returns false idleCore (by decide)

/-! ### C3 -/

set_option maxRecDepth 8000 in
/-- C3: in DFU_VERIFY the background work records `size = bytes_received`,
compares the image CRC (the source's simulated constant `0x1234`, see
`calculated_image_crc`) with the session's `expected_crc`, transitions to
RUNNING_APP exactly when they are equal and to ERROR otherwise. -/
theorem C3_verify_work (f : Bool) (s : Core)
    (h : s.state = BState.dfuVerify) :
    ∃ t, backgroundWork f s = some t ∧
      t.app_validation.size = s.bytes_received ∧
      t.app_validation.expected_crc = s.expected_crc ∧
      t.app_validation.calculated_crc = calculated_image_crc s ∧
      (t.app_validation.valid = true ↔ calculated_image_crc s = s.expected_crc) ∧
      (t.app_validation.valid = true → t.state = BState.runningApp) ∧
      (t.app_validation.valid = false → t.state = BState.error) := by
  by_cases hp : s.flash_busy = true ∧ f = true
  · simp only [backgroundWork, getTick, if_pos hp]
    by_cases hcrc : (4660 : Nat) = s.expected_crc <;>
      simp [h, validate_application, calculated_image_crc, hcrc,
        enter_state_eq, validate_state_transition, entryActions]
  · simp only [backgroundWork, getTick, if_neg hp]
    by_cases hcrc : (4660 : Nat) = s.expected_crc <;>
      simp [h, validate_application, calculated_image_crc, hcrc,
        enter_state_eq, validate_state_transition, entryActions]

/-- The verify-state core used to witness C3. -/
def verifyCore : Core :=
  { mkCore 0 false [] with
    state := BState.dfuVerify,
    expected_crc := 4660,
    bytes_received := 512,
    session_active := true,
    session_timeout_ms := 30000,
    app_validation_timeout_ms := 5000 }

theorem C3_witness :
    ∃ t, backgroundWork false verifyCore = some t ∧
      t.app_validation.size = verifyCore.bytes_received ∧
      t.app_validation.expected_crc = verifyCore.expected_crc ∧
      t.app_validation.calculated_crc = calculated_image_crc verifyCore ∧
      (t.app_validation.valid = true ↔
        calculated_image_crc verifyCore = verifyCore.expected_crc) ∧
      (t.app_validation.valid = true → t.state = BState.runningApp) ∧
      (t.app_validation.valid = false → t.state = BState.error) :=
  C3_verify_work false verifyCore rfl


/-! ### C4 -/

/-- The recovery-state core used by the C4 material. -/
def recCore : Core :=
  { mkCore 0 false [] with
    state := BState.emergencyRecovery,
    force_bootloader_mode := true,
    session_timeout_ms := 30000,
    app_validation_timeout_ms := 5000 }

def getStatusPkt : Packet := { data := [0, 6], length := 2, valid := true }

def pingPkt : Packet := { data := [0, 5], length := 2, valid := true }

/-- C4 counterexample: a GET_STATUS packet dispatched in
EMERGENCY_RECOVERY is answered ACK by the global type handler, not
NACK(0x10) as the claim demands. -/
theorem C4_counterexample :
    (dispatchPacket getStatusPkt recCore).map (fun t => t.out) =
      some [Resp.ack] := by decide

set_option maxRecDepth 8000 in
/-- C4 as amended: in EMERGENCY_RECOVERY, PING and GET_STATUS are answered
ACK with no state change; EMERGENCY_RESET attempts EMERGENCY_RECOVERY →
EMERGENCY_RECOVERY, an invalid transition whose fallback lands in
STATE_ERROR (no reply); ABORT is silently ignored; every other type is
answered NACK(0x10) with no state change. -/
theorem C4_recovery_dispatch (pkt : Packet) (s : Core)
    (h : s.state = BState.emergencyRecovery) :
    (pByte pkt 1 = 5 → dispatchPacket pkt s = some (sendAck s)) ∧
    (pByte pkt 1 = 6 → dispatchPacket pkt s = some (sendAck s)) ∧
    (pByte pkt 1 = 8 → ∃ t, dispatchPacket pkt s = some t ∧
      t.state = BState.error ∧ t.out = s.out) ∧
    (pByte pkt 1 = 4 → dispatchPacket pkt s = some s) ∧
    (pByte pkt 1 ≠ 4 → pByte pkt 1 ≠ 5 → pByte pkt 1 ≠ 6 → pByte pkt 1 ≠ 8 →
      dispatchPacket pkt s = some (sendNack 16 s)) := by
  refine ⟨?_, ?_, ?_, ?_, ?_⟩
  · intro h5
    simp [dispatchPacket, h5]
  · intro h6
    simp [dispatchPacket, h6]
  · intro h8
    simp [dispatchPacket, h8, handle_emergency_condition, enter_state_eq, h,
      validate_state_transition, entryActions]
  · intro h4
    simp [dispatchPacket, h4, h]
  · intro h4 h5 h6 h8
    simp [dispatchPacket, h4, h5, h6, h8, h]

theorem C4_witness :
    (pByte pingPkt 1 = 5 → dispatchPacket pingPkt recCore = some (sendAck recCore)) ∧
    (pByte pingPkt 1 = 6 → dispatchPacket pingPkt recCore = some (sendAck recCore)) ∧
    (pByte pingPkt 1 = 8 → ∃ t, dispatchPacket pingPkt recCore = some t ∧
      t.state = BState.error ∧ t.out = recCore.out) ∧
    (pByte pingPkt 1 = 4 → dispatchPacket pingPkt recCore = some recCore) ∧
    (pByte pingPkt 1 ≠ 4 → pByte pingPkt 1 ≠ 5 → pByte pingPkt 1 ≠ 6 →
      pByte pingPkt 1 ≠ 8 →
      dispatchPacket pingPkt recCore = some (sendNack 16 recCore)) :=
  C4_recovery_dispatch pingPkt recCore rfl

/-! ### C5 -/

def abortPkt : Packet := { data := [0, 4], length := 2, valid := true }

/-- C5 counterexample: an ABORT packet dispatched in IDLE produces no
response at all — the global ABORT handler only acts in DFU_ACTIVE and no
other handler sees the packet — contradicting the claim that every
dispatched packet is answered. -/
theorem C5_counterexample :
    (dispatchPacket abortPkt idleCore).map (fun t => t.out) = some [] := by
  decide

/-- The state `enter_state` produces when the transition to `dst` is
admissible: fields stamped, then the entry actions. -/
def afterEnter (dst : BState) (s : Core) : Core :=
  entryActions { s with previous_state := s.state, state := dst,
                        tick := (s.tick + 1000) % U32,
                        state_entry_time := (s.tick + 1000) % U32 }

theorem enter_state_eq2 (dst : BState) (s : Core) :
    enter_state dst s =
      if validate_state_transition s.state dst then some (afterEnter dst s)
      else if validate_state_transition s.state BState.error then
        some (afterEnter BState.error s)
      else none := rfl

theorem afterEnter_out (dst : BState) (s : Core) :
    (afterEnter dst s).out = s.out := by
  simp [afterEnter, entryActions_out]

set_option maxRecDepth 8000 in
/-- C5 as amended: every dispatched packet other than EMERGENCY_RESET
(which only triggers the recovery transition) and ABORT outside DFU_ACTIVE
(which is silently ignored) is answered with at least one ACK/NACK frame
in the same cycle, in every state. -/
theorem C5_dispatch_responds (pkt : Packet) (s : Core)
    (h8 : pByte pkt 1 ≠ 8)
    (h4 : pByte pkt 1 = 4 → s.state = BState.dfuActive) :
    ∃ t, dispatchPacket pkt s = some t ∧ s.out.length < t.out.length := by
  by_cases h5 : pByte pkt 1 = 5
  · refine ⟨sendAck s, ?_, by simp [sendAck]⟩
    simp [dispatchPacket, h5]
  by_cases h6 : pByte pkt 1 = 6
  · refine ⟨sendAck s, ?_, by simp [sendAck]⟩
    simp [dispatchPacket, h6]
  by_cases hx4 : pByte pkt 1 = 4
  · have hst := h4 hx4
    refine ⟨sendAck (afterEnter BState.idle s), ?_, ?_⟩
    · simp [dispatchPacket, hx4, hst, enter_state_eq2,
        validate_state_transition]
    · simp [sendAck, afterEnter_out]
  cases hs : s.state with
  | idle =>
    obtain ⟨t, ht, _, ho⟩ := handle_idle_total pkt (pByte pkt 1) s hs
    refine ⟨t, ?_, by omega⟩
    simp [dispatchPacket, h5, h6, hx4, h8, hs, ht]
  | dfuActive =>
    obtain ⟨t, ht, _, ho⟩ := handle_dfu_total pkt (pByte pkt 0) (pByte pkt 1) s hs
    refine ⟨t, ?_, by omega⟩
    simp [dispatchPacket, h5, h6, hx4, h8, hs, ht]
  | dfuVerify =>
    refine ⟨sendNack 17 s, ?_, by simp [sendNack]⟩
    simp [dispatchPacket, h5, h6, hx4, h8, hs]
  | runningApp =>
    refine ⟨sendNack 17 s, ?_, by simp [sendNack]⟩
    simp [dispatchPacket, h5, h6, hx4, h8, hs]
  | emergencyRecovery =>
    refine ⟨sendNack 16 s, ?_, by simp [sendNack]⟩
    simp [dispatchPacket, h5, h6, hx4, h8, hs]
  | error =>
    refine ⟨sendNack 17 s, ?_, by simp [sendNack]⟩
    simp [dispatchPacket, h5, h6, hx4, h8, hs]

theorem C5_witness :
    ∃ t, dispatchPacket pingPkt idleCore = some t ∧
      idleCore.out.length < t.out.length :=
  C5_dispatch_responds pingPkt idleCore (by decide) (by decide)

/-! ### C6 -/

/-- The oversized enqueue used by the C6 material: 300 bytes, 44 more than
the 256-byte slot. -/
def oversized : List Nat := List.replicate 300 7

set_option maxRecDepth 8000 in
/-- C6: the enqueue path accepts the packet, marks the slot valid,
advances `head`, increments `count` and stamps `last_activity_time` as the
claim says — but it stores all 300 caller bytes: the C `memcpy` copies the
caller-supplied length with no clamp to MAX_PACKET_SIZE, writing past the
256-byte slot. -/
theorem C6_unclamped_enqueue :
    (bootloader_receive_packet oversized (mkCore 0 false [])).map
      (fun r => (r.1, (r.2.buffer.getD 0 emptyPacket).length,
        (r.2.buffer.getD 0 emptyPacket).valid, r.2.head, r.2.count,
        r.2.last_activity_time)) = some (true, 300, true, 1, 1, 1000) ∧
    MAX_PACKET_SIZE < 300 := by decide


/-! ### C7 -/

theorem afterEnter_count (dst : BState) (s : Core) :
    (afterEnter dst s).count = s.count := by
  simp [afterEnter, entryActions_count]

set_option maxRecDepth 8000 in
/-- C7: a DATA packet rejected in DFU_ACTIVE — sequence mismatch
(NACK 0x02) or flash driver busy (NACK 0x03) — leaves `bytes_received` and
`expected_seq` unchanged by the dispatch. -/
theorem C7_rejected_data_unchanged (pkt : Packet) (s : Core)
    (h : s.state = BState.dfuActive) (ht : pByte pkt 1 = 2)
    (hrej : pByte pkt 0 ≠ s.expected_seq ∨ s.flash_busy = true) :
    ∃ t, dispatchPacket pkt s = some t ∧
      t.bytes_received = s.bytes_received ∧
      t.expected_seq = s.expected_seq ∧
      (pByte pkt 0 ≠ s.expected_seq → t.out = s.out ++ [Resp.nack 2]) ∧
      (pByte pkt 0 = s.expected_seq → t.out = s.out ++ [Resp.nack 3]) := by
  by_cases hsq : pByte pkt 0 = s.expected_seq
  · have hb : s.flash_busy = true := hrej.resolve_left (not_not_intro hsq)
    refine ⟨sendNack 3 s, ?_, rfl, rfl, ?_, fun _ => rfl⟩
    · simp [dispatchPacket, handle_dfu_packet, ht, hsq, hb, h]
    · intro hn
      exact absurd hsq hn
  · by_cases hesc : (s.error_count + 1) % U32 > 5
    · refine ⟨afterEnter BState.emergencyRecovery
        { (sendNack 2 s) with error_count := (s.error_count + 1) % U32 },
        ?_, ?_, ?_, fun _ => ?_, fun hq => absurd hq hsq⟩
      · simp [dispatchPacket, handle_dfu_packet, ht, hsq, hesc, h,
          handle_emergency_condition, enter_state_eq2,
          validate_state_transition, sendNack]
      · simp [afterEnter, entryActions, sendNack]
      · simp [afterEnter, entryActions, sendNack]
      · simp [afterEnter_out, sendNack]
    · refine ⟨{ (sendNack 2 s) with error_count := (s.error_count + 1) % U32 },
        ?_, rfl, rfl, fun _ => ?_, fun hq => absurd hq hsq⟩
      · simp [dispatchPacket, handle_dfu_packet, ht, hsq, hesc, h]
      · simp [sendNack]

/-- The DFU-active core used by the C7, C8 and C10 witnesses. -/
def dfuCore : Core :=
  { mkCore 5000 false [] with
    state := BState.dfuActive,
    session_active := true,
    expected_seq := 1,
    total_size := 512,
    last_activity_time := 5000,
    session_timeout_ms := 30000,
    app_validation_timeout_ms := 5000,
    error_count := 5 }

def badSeqPkt : Packet := { data := [9, 2, 170], length := 3, valid := true }

theorem C7_witness :
    ∃ t, dispatchPacket badSeqPkt dfuCore = some t ∧
      t.bytes_received = dfuCore.bytes_received ∧
      t.expected_seq = dfuCore.expected_seq ∧
      (pByte badSeqPkt 0 ≠ dfuCore.expected_seq →
        t.out = dfuCore.out ++ [Resp.nack 2]) ∧
      (pByte badSeqPkt 0 = dfuCore.expected_seq →
        t.out = dfuCore.out ++ [Resp.nack 3]) :=
  C7_rejected_data_unchanged badSeqPkt dfuCore rfl (by decide)
    (Or.inl (by decide))

/-! ### C8 -/

set_option maxRecDepth 8000 in
/-- C8: a DATA packet in DFU_ACTIVE whose sequence byte differs from
`expected_seq` is answered NACK(0x02) and increments `error_count`; when
the incremented count exceeds 5 the supervisor transitions to
EMERGENCY_RECOVERY, otherwise it stays in DFU_ACTIVE. -/
theorem C8_sequence_error_escalates (pkt : Packet) (s : Core)
    (h : s.state = BState.dfuActive) (ht : pByte pkt 1 = 2)
    (hm : pByte pkt 0 ≠ s.expected_seq) :
    ∃ t, dispatchPacket pkt s = some t ∧
      t.out = s.out ++ [Resp.nack 2] ∧
      t.error_count = (s.error_count + 1) % U32 ∧
      ((s.error_count + 1) % U32 > 5 → t.state = BState.emergencyRecovery) ∧
      ((s.error_count + 1) % U32 ≤ 5 → t.state = BState.dfuActive) := by
  by_cases hesc : (s.error_count + 1) % U32 > 5
  · refine ⟨afterEnter BState.emergencyRecovery
      { (sendNack 2 s) with error_count := (s.error_count + 1) % U32 },
      ?_, ?_, ?_, fun _ => ?_, fun hle => absurd hesc (by omega)⟩
    · simp [dispatchPacket, handle_dfu_packet, ht, hm, hesc, h,
        handle_emergency_condition, enter_state_eq2,
        validate_state_transition, sendNack]
    · simp [afterEnter_out, sendNack]
    · simp [afterEnter, entryActions, sendNack]
    · simp [afterEnter, entryActions]
  · refine ⟨{ (sendNack 2 s) with error_count := (s.error_count + 1) % U32 },
      ?_, by simp [sendNack], rfl, fun hgt => absurd hgt hesc, fun _ => h⟩
    simp [dispatchPacket, handle_dfu_packet, ht, hm, hesc, h]

theorem C8_witness :
    ∃ t, dispatchPacket badSeqPkt dfuCore = some t ∧
      t.out = dfuCore.out ++ [Resp.nack 2] ∧
      t.error_count = (dfuCore.error_count + 1) % U32 ∧
      ((dfuCore.error_count + 1) % U32 > 5 →
        t.state = BState.emergencyRecovery) ∧
      ((dfuCore.error_count + 1) % U32 ≤ 5 →
        t.state = BState.dfuActive) :=
  C8_sequence_error_escalates badSeqPkt dfuCore rfl (by decide) (by decide)


/-! ### C9 -/

/-- A core that entered EMERGENCY_RECOVERY more than 10 s ago but whose
session-inactivity timeout has also expired: the session check fires
first, so the recovery branch never runs. -/
def c9bad : Core :=
  { mkCore 40000000 false [] with
    state := BState.emergencyRecovery,
    session_active := true,
    state_entry_time := 29000000,
    session_timeout_ms := 30000,
    app_validation_timeout_ms := 5000,
    packets_dropped := 7,
    error_count := 3,
    force_bootloader_mode := true }

set_option maxRecDepth 8000 in
/-- C9 counterexample: on `c9bad` more than 10 s have elapsed since
EMERGENCY_RECOVERY was entered (11.0 s by the tick the cycle samples),
yet the cycle ends in IDLE with `packets_dropped = 7` and
`error_count = 4` — nothing is cleared, because the session-inactivity
check fires first, detours through STATE_ERROR (incrementing
`error_count`) and self-heals to IDLE before the recovery branch can
run. -/
theorem C9_counterexample :
    (bootloader_process_cycle false c9bad).map
      (fun t => (t.state, t.packets_dropped, t.error_count)) =
      some (BState.idle, 7, 4) := by decide

theorem afterEnter_state (dst : BState) (s : Core) :
    (afterEnter dst s).state = dst := by
  simp only [afterEnter, entryActions_state]

set_option maxRecDepth 8000 in
/-- C9 as amended: in EMERGENCY_RECOVERY with an empty queue, once the
recovery branch observes more than 10 s since state entry — and provided
the session-inactivity timeout has not also expired — the cycle clears
`packets_dropped` and `error_count` and ends in IDLE, with
`force_bootloader_mode` unchanged (so still latched when it was set). -/
theorem C9_recovery_selfheal (f : Bool) (s : Core)
    (h : s.state = BState.emergencyRecovery)
    (hq : s.count = 0)
    (hsess : ¬(s.session_active = true ∧
        elapsed ((s.tick + 1000) % U32) s.last_activity_time >
          s.session_timeout_ms * 1000 % U32))
    (hrec : elapsed ((s.tick + 1000 + 1000) % U32) s.state_entry_time
        > 10000000) :
    ∃ t, bootloader_process_cycle f s = some t ∧ t.state = BState.idle ∧
      t.packets_dropped = 0 ∧ t.error_count = 0 ∧
      t.force_bootloader_mode = s.force_bootloader_mode := by
  by_cases hp : s.flash_busy = true ∧ f = true <;>
    simp [bootloader_process_cycle, handle_timeout_checks, getTick,
      backgroundWork, hsess, hrec, hq, h, hp, enter_state_eq2,
      validate_state_transition, afterEnter, entryActions, drainF]

/-- The recovery core on which the C9 self-heal succeeds: 15 s since
entry, last activity 1 s ago. -/
def c9good : Core :=
  { mkCore 20000000 false [] with
    state := BState.emergencyRecovery,
    session_active := true,
    last_activity_time := 19000000,
    state_entry_time := 5000000,
    session_timeout_ms := 30000,
    app_validation_timeout_ms := 5000,
    packets_dropped := 7,
    error_count := 3,
    force_bootloader_mode := true }

theorem C9_witness :
    ∃ t, bootloader_process_cycle false c9good = some t ∧
      t.state = BState.idle ∧ t.packets_dropped = 0 ∧ t.error_count = 0 ∧
      t.force_bootloader_mode = c9good.force_bootloader_mode :=
  C9_recovery_selfheal false c9good rfl rfl (by decide) (by decide)


/-! ### C10 -/

/-- The per-session invariant behind C10: `expected_seq` starts at 1 on
START_SESSION, only grows by matching a single wire byte, and each
accepted DATA adds at most 254 payload bytes. -/
def sessionInv (s : Core) : Prop :=
  1 ≤ s.expected_seq ∧ s.expected_seq ≤ 256 ∧
    s.bytes_received ≤ 254 * (s.expected_seq - 1)

instance sessionInvDecidable (s : Core) : Decidable (sessionInv s) :=
  inferInstanceAs (Decidable (_ ∧ _ ∧ _))

set_option maxRecDepth 8000 in
/-- C10: in DFU_ACTIVE under `sessionInv`, for a packet bounded by
MAX_PACKET_SIZE, dispatch preserves the invariant while the session
continues, a DATA packet is accepted only while `expected_seq ≤ 255`
(the wire sequence is the single byte `data[0]`, so after 255 accepted
DATA packets nothing can match), and when `total_size > 254 * 255` the
dispatch can never reach DFU_VERIFY: `bytes_received ≤ 254 * 255 <
total_size`, so END_SESSION always takes its failure branch. -/
theorem C10_session_bounded (pkt : Packet) (s : Core)
    (h : s.state = BState.dfuActive)
    (hinv : sessionInv s)
    (hlen : pkt.data.length = pkt.length)
    (hmax : pkt.length ≤ MAX_PACKET_SIZE)
    (hts : 254 * 255 < s.total_size) :
    ∃ t, dispatchPacket pkt s = some t ∧
      t.state ≠ BState.dfuVerify ∧
      (t.state = BState.dfuActive → sessionInv t) ∧
      (s.expected_seq < t.expected_seq → s.expected_seq ≤ 255) := by
  obtain ⟨hi1, hi2, hi3⟩ := hinv
  by_cases h5 : pByte pkt 1 = 5
  · refine ⟨sendAck s, by simp [dispatchPacket, h5], by simp [sendAck, h],
      fun _ => ⟨hi1, hi2, hi3⟩, fun hlt => ?_⟩
    simp [sendAck] at hlt
  by_cases h6 : pByte pkt 1 = 6
  · refine ⟨sendAck s, by simp [dispatchPacket, h6], by simp [sendAck, h],
      fun _ => ⟨hi1, hi2, hi3⟩, fun hlt => ?_⟩
    simp [sendAck] at hlt
  by_cases hx8 : pByte pkt 1 = 8
  · refine ⟨afterEnter BState.emergencyRecovery s, ?_, ?_, fun hda => ?_,
      fun hlt => ?_⟩
    · simp [dispatchPacket, hx8, handle_emergency_condition, enter_state_eq2,
        h, validate_state_transition]
    · simp [afterEnter_state]
    · rw [afterEnter_state] at hda
      simp at hda
    · simp [afterEnter, entryActions] at hlt
  by_cases hx4 : pByte pkt 1 = 4
  · refine ⟨sendAck (afterEnter BState.idle s), ?_, ?_, fun hda => ?_,
      fun hlt => ?_⟩
    · simp [dispatchPacket, hx4, h, enter_state_eq2, validate_state_transition]
    · simp [sendAck, afterEnter_state]
    · simp [sendAck, afterEnter_state] at hda
    · simp [sendAck, afterEnter, entryActions] at hlt
  by_cases ht2 : pByte pkt 1 = 2
  · by_cases hsq : pByte pkt 0 = s.expected_seq
    · by_cases hfb : s.flash_busy = false
      · -- the accepted DATA packet
        have hb8 : pByte pkt 0 < 256 := Nat.mod_lt _ (by norm_num)
        have hseqle : s.expected_seq ≤ 255 := by omega
        have hd2 : 2 ≤ pkt.length := by
          by_contra hc
          push_neg at hc
          have hz : pByte pkt 1 = 0 := by
            unfold pByte
            rw [List.getD_eq_default _ _ (by omega)]
          omega
        have hpl : (pkt.length + U64 - 2) % U64 = pkt.length - 2 := by
          simp only [U64]
          simp only [MAX_PACKET_SIZE] at hmax
          omega
        have hby : (s.bytes_received + (pkt.length - 2)) % U32 =
            s.bytes_received + (pkt.length - 2) := by
          apply Nat.mod_eq_of_lt
          simp only [U32]
          simp only [MAX_PACKET_SIZE] at hmax
          omega
        have hs1 : (s.expected_seq + 1) % U32 = s.expected_seq + 1 :=
          Nat.mod_eq_of_lt (by simp only [U32]; omega)
        refine
          ⟨sendAck
            { s with
              flash_busy := true,
              bytes_received :=
                (s.bytes_received + (pkt.length + U64 - 2) % U64) % U32,
              expected_seq := (s.expected_seq + 1) % U32 },
            ?_, ?_, fun _ => ?_, fun _ => hseqle⟩
        · simp [dispatchPacket, handle_dfu_packet, ht2, hsq, hfb, h]
        · simp [sendAck, h]
        · refine ⟨?_, ?_, ?_⟩ <;>
            simp only [sendAck, hpl, hby, hs1] <;>
            simp only [MAX_PACKET_SIZE] at hmax <;>
            omega
      · refine ⟨sendNack 3 s, ?_, by simp [sendNack, h],
          fun _ => ⟨hi1, hi2, hi3⟩, fun hlt => ?_⟩
        · simp [dispatchPacket, handle_dfu_packet, ht2, hsq, hfb, h]
        · simp [sendNack] at hlt
    · by_cases hesc : (s.error_count + 1) % U32 > 5
      · refine ⟨afterEnter BState.emergencyRecovery
          { (sendNack 2 s) with error_count := (s.error_count + 1) % U32 },
          ?_, ?_, fun hda => ?_, fun hlt => ?_⟩
        · simp [dispatchPacket, handle_dfu_packet, ht2, hsq, hesc, h,
            handle_emergency_condition, enter_state_eq2,
            validate_state_transition, sendNack]
        · simp [afterEnter_state]
        · rw [afterEnter_state] at hda
          simp at hda
        · simp [afterEnter, entryActions, sendNack] at hlt
      · refine ⟨{ (sendNack 2 s) with
          error_count := (s.error_count + 1) % U32 }, ?_,
          by simp [sendNack, h], fun _ => ⟨hi1, hi2, hi3⟩, fun hlt => ?_⟩
        · simp [dispatchPacket, handle_dfu_packet, ht2, hsq, hesc, h]
        · simp [sendNack] at hlt
  by_cases ht3 : pByte pkt 1 = 3
  · -- END_SESSION with an impossible size: always the failure branch
    have hne : ¬(s.bytes_received = s.total_size) := by omega
    refine ⟨afterEnter BState.error (sendNack 8 s), ?_, ?_, fun hda => ?_,
      fun hlt => ?_⟩
    · simp [dispatchPacket, handle_dfu_packet, ht3, ht2, hne, h,
        enter_state_eq2, validate_state_transition, sendNack]
    · simp [afterEnter_state]
    · rw [afterEnter_state] at hda
      simp at hda
    · simp [afterEnter, entryActions, sendNack] at hlt
  · -- any other type in DFU_ACTIVE: NACK(0x04)
    refine ⟨sendNack 4 s, ?_, by simp [sendNack, h],
      fun _ => ⟨hi1, hi2, hi3⟩, fun hlt => ?_⟩
    · simp [dispatchPacket, handle_dfu_packet, h5, h6, hx8, hx4, ht2, ht3, h]
    · simp [sendNack] at hlt

/-- A DFU-active core declaring more data than 255 DATA packets can ever
deliver. -/
def bigSessionCore : Core :=
  { mkCore 5000 false [] with
    state := BState.dfuActive,
    session_active := true,
    expected_seq := 1,
    total_size := 100000,
    last_activity_time := 5000,
    session_timeout_ms := 30000,
    app_validation_timeout_ms := 5000 }

def dataPkt : Packet := { data := [1, 2, 170], length := 3, valid := true }

theorem C10_witness :
    ∃ t, dispatchPacket dataPkt bigSessionCore = some t ∧
      t.state ≠ BState.dfuVerify ∧
      (t.state = BState.dfuActive → sessionInv t) ∧
      (bigSessionCore.expected_seq < t.expected_seq →
        bigSessionCore.expected_seq ≤ 255) :=
  C10_session_bounded dataPkt bigSessionCore rfl (by decide) rfl (by decide)
    (by decide)

end Boot
